import Mathlib

/-!
Verification of the GRC ML service stub (packages/ml-service/src/main.py).

The service exposes four HTTP routes over a static registry of two mock
model records.  We embed the data model and the four request handlers as
pure Lean functions:

* Python `float` values are embedded as `ℚ` (the handlers only do exact
  field arithmetic on the sampled values; `round(x, 3)` is embedded as
  rounding to the nearest multiple of `1/1000`, ties to even, which is
  Python's rounding convention).
* The pseudo-random draws (`np.random.normal(6.5, 1.5)` and the
  `np.random.random()` calls) are passed in as explicit arguments:
  `normalSample` for the normal draw (unconstrained), and `u1`, `u2` for
  the first and second uniform draw consumed by a handler, each of which
  satisfies `0 ≤ u < 1` for a genuine `np.random.random()` result.
* `datetime.now().isoformat()` is passed in as an explicit `now : String`.
* `HTTPException` is embedded as an `Except` error value carrying the
  status code and detail message.
* The `data : Dict[str, Any]` request field is embedded as a JSON-like
  value; no handler ever inspects it.
-/

/-- A JSON-like value, embedding Python's `Any` for the `data` field of a
prediction request. -/
inductive JsonValue where
  | null
  | bool (b : Bool)
  | num (q : ℚ)
  | str (s : String)
  | arr (elems : List JsonValue)
  | obj (entries : List (String × JsonValue))

/-- `HealthResponse` pydantic model from main.py. -/
structure HealthResponse where
  status : String
  timestamp : String
  models_loaded : Nat
deriving DecidableEq

/-- `ModelInfo` pydantic model from main.py.  The entries of `MOCK_MODELS`
are Python dict literals with exactly these six keys; we embed them
directly as values of this structure. -/
structure ModelInfo where
  id : String
  name : String
  type : String
  status : String
  accuracy : ℚ
  version : String
deriving DecidableEq

/-- `PredictionRequest` pydantic model from main.py. -/
structure PredictionRequest where
  tenant_id : String
  model_type : String
  data : List (String × JsonValue)

/-- `PredictionResponse` pydantic model from main.py. -/
structure PredictionResponse where
  prediction : ℚ
  confidence : ℚ
  model_version : String
  timestamp : String
deriving DecidableEq

/-- An `HTTPException` raised by a handler. -/
structure HTTPError where
  status_code : Nat
  detail : String
deriving DecidableEq

/-- The first entry of `MOCK_MODELS` in main.py. -/
def riskRecord : ModelInfo :=
  ⟨"risk-predictor-local", "Risk Prediction Model (Local)",
   "risk_prediction", "active", 0.847, "1.0.0-local"⟩

/-- The second entry of `MOCK_MODELS` in main.py. -/
def qualityRecord : ModelInfo :=
  ⟨"data-quality-local", "Data Quality Checker (Local)",
   "data_quality", "active", 0.923, "1.0.0-local"⟩

/-- The static mock model registry `MOCK_MODELS` from main.py, in
definition order: risk_prediction first, then data_quality. -/
def MOCK_MODELS : List ModelInfo := [riskRecord, qualityRecord]

/-- Round a rational to the nearest integer, ties to even — the rounding
convention of Python's built-in `round`. -/
def roundHalfEven (q : ℚ) : ℤ :=
  if Int.fract q < 1/2 then ⌊q⌋
  else if 1/2 < Int.fract q then ⌊q⌋ + 1
  else if ⌊q⌋ % 2 = 0 then ⌊q⌋ else ⌊q⌋ + 1

/-- `round(q, 3)` from main.py: round to 3 decimal places. -/
def round3 (q : ℚ) : ℚ := (roundHalfEven (q * 1000) : ℚ) / 1000

/-- The three-way branch of the prediction computation in `predict`:
`if request.model_type == "risk_prediction": ... elif
request.model_type == "data_quality": ... else: ...`. -/
inductive PredictBranch where
  | risk
  | quality
  | generic
deriving DecidableEq

/-- Which branch of the if/elif/else in `predict` a given `model_type`
reaches. -/
def predictionBranch (model_type : String) : PredictBranch :=
  if model_type == "risk_prediction" then .risk
  else if model_type == "data_quality" then .quality
  else .generic

/-- The raw (pre-rounding) prediction value computed by the branch of
`predict` selected by `model_type`.  `normalSample` is the
`np.random.normal(6.5, 1.5)` draw, `u1` the first `np.random.random()`
draw. -/
def rawPrediction (model_type : String) (normalSample u1 : ℚ) : ℚ :=
  match predictionBranch model_type with
  | .risk => max 0 (min 10 normalSample)
  | .quality => 0.7 + u1 * 0.25
  | .generic => u1

/-- The raw (pre-rounding) confidence value computed by the branch of
`predict` selected by `model_type`.  `u1` and `u2` are the first and
second `np.random.random()` draws. -/
def rawConfidence (model_type : String) (u1 u2 : ℚ) : ℚ :=
  match predictionBranch model_type with
  | .risk => 0.75 + u1 * 0.2
  | .quality => 0.8 + u2 * 0.15
  | .generic => 0.6 + u2 * 0.3

/-- The `POST /predict` handler body, over an explicit registry `models`:
find the first record whose `type` equals the request's `model_type`
(404 if none), compute the branch-dependent raw values, and return them
rounded to 3 decimals together with the matched record's version. -/
def predictOn (models : List ModelInfo) (request : PredictionRequest)
    (normalSample u1 u2 : ℚ) (now : String) :
    Except HTTPError PredictionResponse :=
  match models.find? (fun m => m.type == request.model_type) with
  | none => Except.error
      ⟨404, "Model type \x27" ++ request.model_type ++ "\x27 not found"⟩
  | some model => Except.ok
      ⟨round3 (rawPrediction request.model_type normalSample u1),
       round3 (rawConfidence request.model_type u1 u2),
       model.version, now⟩

/-- The `POST /predict` handler on the process-wide registry. -/
def predict (request : PredictionRequest) (normalSample u1 u2 : ℚ)
    (now : String) : Except HTTPError PredictionResponse :=
  predictOn MOCK_MODELS request normalSample u1 u2 now

/-- The `GET /health` handler body over an explicit registry. -/
def healthOn (models : List ModelInfo) (now : String) : HealthResponse :=
  ⟨"healthy", now, models.length⟩

/-- The `GET /health` handler on the process-wide registry. -/
def health_check (now : String) : HealthResponse := healthOn MOCK_MODELS now

/-- The `GET /models` handler body over an explicit registry:
`[ModelInfo(**model) for model in MOCK_MODELS]` rebuilds a `ModelInfo`
from each registry entry's fields. -/
def getModelsOn (models : List ModelInfo) : List ModelInfo :=
  models.map (fun m => ⟨m.id, m.name, m.type, m.status, m.accuracy, m.version⟩)

/-- The `GET /models` handler on the process-wide registry. -/
def get_models : List ModelInfo := getModelsOn MOCK_MODELS

/-- The static JSON body returned by the `GET /` root handler. -/
structure RootResponse where
  service : String
  version : String
  status : String
  endpoints : List (String × String)
deriving DecidableEq

/-- The `GET /` handler: a constant payload. -/
def root_endpoint : RootResponse :=
  ⟨"GRC ML Service", "0.1.0-local", "running",
   [("health", "/health"), ("models", "/models"), ("predict", "/predict")]⟩

/-- The server state: the process-wide model registry.  In main.py it is
the module-level `MOCK_MODELS` list, readable and in principle writable
by every handler. -/
structure ServerState where
  models : List ModelInfo
deriving DecidableEq

/-- Stateful embedding of the `/health` handler: the handler reads the
registry and returns it unchanged. -/
def health_check_app (s : ServerState) (now : String) :
    HealthResponse × ServerState :=
  (healthOn s.models now, s)

/-- Stateful embedding of the `/models` handler. -/
def get_models_app (s : ServerState) : List ModelInfo × ServerState :=
  (getModelsOn s.models, s)

/-- Stateful embedding of the `/predict` handler. -/
def predict_app (s : ServerState) (request : PredictionRequest)
    (normalSample u1 u2 : ℚ) (now : String) :
    Except HTTPError PredictionResponse × ServerState :=
  (predictOn s.models request normalSample u1 u2 now, s)

/-- Stateful embedding of the `GET /` handler. -/
def root_app (s : ServerState) : RootResponse × ServerState :=
  (root_endpoint, s)

/-- The lookup step as the spec words it: "find the first ModelRecord
whose `type` equals `model_type` (first-match, list order = definition
order)".  Used to state that the handler's lookup refines the spec's
first-match description. -/
def specLookup : List ModelInfo → String → Option ModelInfo
  | [], _ => none
  | m :: rest, mt => if m.type = mt then some m else specLookup rest mt

/-! ## Rounding lemmas -/

lemma floor_le_roundHalfEven (q : ℚ) : ⌊q⌋ ≤ roundHalfEven q := by
  unfold roundHalfEven
  split_ifs <;> omega

lemma roundHalfEven_le_ceil (q : ℚ) : roundHalfEven q ≤ ⌈q⌉ := by
  have hadd := Int.floor_add_fract q
  have hceil := Int.le_ceil q
  unfold roundHalfEven
  split_ifs with h1 h2 h3
  · exact Int.floor_le_ceil q
  · have hq : (⌊q⌋ : ℚ) < q := by linarith
    have hlt : (⌊q⌋ : ℚ) < (⌈q⌉ : ℚ) := lt_of_lt_of_le hq hceil
    have := Int.cast_lt.mp hlt
    omega
  · exact Int.floor_le_ceil q
  · have hq : (⌊q⌋ : ℚ) < q := by linarith
    have hlt : (⌊q⌋ : ℚ) < (⌈q⌉ : ℚ) := lt_of_lt_of_le hq hceil
    have := Int.cast_lt.mp hlt
    omega

lemma abs_roundHalfEven_sub (q : ℚ) : |(roundHalfEven q : ℚ) - q| ≤ 1/2 := by
  have hadd := Int.floor_add_fract q
  have h0 := Int.fract_nonneg q
  have h1 := Int.fract_lt_one q
  unfold roundHalfEven
  split_ifs with ha hb hc <;> rw [abs_le] <;> constructor <;> push_cast <;> linarith

lemma roundHalfEven_eq_of_lt_half (q : ℚ) (n : ℤ) (h1 : (n:ℚ) ≤ q)
    (h2 : q < (n:ℚ) + 1/2) : roundHalfEven q = n := by
  have hf : ⌊q⌋ = n := Int.floor_eq_iff.mpr ⟨h1, by linarith⟩
  have hadd := Int.floor_add_fract q
  rw [hf] at hadd
  have hfr : Int.fract q < 1/2 := by linarith
  unfold roundHalfEven
  rw [if_pos hfr, hf]

lemma roundHalfEven_eq_of_half_lt (q : ℚ) (n : ℤ) (h1 : (n:ℚ) + 1/2 < q)
    (h2 : q < (n:ℚ) + 1) : roundHalfEven q = n + 1 := by
  have hf : ⌊q⌋ = n := Int.floor_eq_iff.mpr ⟨by linarith, by linarith⟩
  have hadd := Int.floor_add_fract q
  rw [hf] at hadd
  have hfr1 : ¬ Int.fract q < 1/2 := by push_neg; linarith
  have hfr2 : 1/2 < Int.fract q := by linarith
  unfold roundHalfEven
  rw [if_neg hfr1, if_pos hfr2, hf]

/-- `round3` never moves below a bound that is a multiple of `1/1000`. -/
lemma le_round3 (m : ℤ) (q : ℚ) (h : (m:ℚ)/1000 ≤ q) : (m:ℚ)/1000 ≤ round3 q := by
  unfold round3
  have h1 : (m:ℚ) ≤ q * 1000 := by linarith
  have h2 : m ≤ ⌊q * 1000⌋ := Int.le_floor.mpr h1
  have h3 : m ≤ roundHalfEven (q * 1000) := le_trans h2 (floor_le_roundHalfEven _)
  have h4 : (m:ℚ) ≤ (roundHalfEven (q * 1000) : ℚ) := Int.cast_le.mpr h3
  linarith

/-- `round3` never moves above a bound that is a multiple of `1/1000`. -/
lemma round3_le (m : ℤ) (q : ℚ) (h : q ≤ (m:ℚ)/1000) : round3 q ≤ (m:ℚ)/1000 := by
  unfold round3
  have h1 : q * 1000 ≤ (m:ℚ) := by linarith
  have h2 : ⌈q * 1000⌉ ≤ m := Int.ceil_le.mpr h1
  have h3 : roundHalfEven (q * 1000) ≤ m := le_trans (roundHalfEven_le_ceil _) h2
  have h4 : (roundHalfEven (q * 1000) : ℚ) ≤ (m:ℚ) := Int.cast_le.mpr h3
  linarith

/-- `round3 q` is an integer multiple of `1/1000`. -/
lemma round3_thousandth (q : ℚ) : ∃ k : ℤ, round3 q = (k:ℚ)/1000 :=
  ⟨roundHalfEven (q * 1000), rfl⟩

/-- `round3 q` is within half a thousandth of `q`. -/
lemma round3_close (q : ℚ) : |round3 q - q| ≤ 1/2000 := by
  have h := abs_roundHalfEven_sub (q * 1000)
  have e : round3 q - q = ((roundHalfEven (q * 1000) : ℚ) - q * 1000) / 1000 := by
    unfold round3; ring
  rw [e, abs_div, abs_of_pos (by norm_num : (0:ℚ) < 1000)]
  linarith

/-! ## Handler shape lemmas -/

/-- Evaluating `predict` on a `risk_prediction` request. -/
lemma predict_risk_eq (t : String) (d : List (String × JsonValue))
    (g u1 u2 : ℚ) (ts : String) :
    predict ⟨t, "risk_prediction", d⟩ g u1 u2 ts =
      Except.ok ⟨round3 (max 0 (min 10 g)), round3 (0.75 + u1 * 0.2),
        "1.0.0-local", ts⟩ := rfl

/-- Evaluating `predict` on a `data_quality` request. -/
lemma predict_quality_eq (t : String) (d : List (String × JsonValue))
    (g u1 u2 : ℚ) (ts : String) :
    predict ⟨t, "data_quality", d⟩ g u1 u2 ts =
      Except.ok ⟨round3 (0.7 + u1 * 0.25), round3 (0.8 + u2 * 0.15),
        "1.0.0-local", ts⟩ := rfl

/-- Evaluating `predict` on a request whose type matches no registry
record. -/
lemma predict_unknown_eq (t : String) (d : List (String × JsonValue))
    (g u1 u2 : ℚ) (ts mt : String)
    (h1 : mt ≠ "risk_prediction") (h2 : mt ≠ "data_quality") :
    predict ⟨t, mt, d⟩ g u1 u2 ts =
      Except.error ⟨404, "Model type \x27" ++ mt ++ "\x27 not found"⟩ := by
  have e1 : (("risk_prediction" : String) == mt) = false := by
    simpa using Ne.symm h1
  have e2 : (("data_quality" : String) == mt) = false := by
    simpa using Ne.symm h2
  unfold predict predictOn MOCK_MODELS
  rw [show [riskRecord, qualityRecord].find?
        (fun m => m.type == (⟨t, mt, d⟩ : PredictionRequest).model_type) = none by
    simp [riskRecord, qualityRecord, List.find?, e1, e2]]

/-! ## Claim theorems -/

/-- C6: every call to `GET /models` returns exactly the two static
records, in definition order (risk_prediction first, then data_quality),
with exactly the registry's field values; and a repeated call — run on
the state left behind by the first call — returns an identical payload.
(`get_models` takes no input at all, so its payload is the same constant
on every call of the process lifetime.) -/
theorem C6_get_models_static :
    get_models =
      [⟨"risk-predictor-local", "Risk Prediction Model (Local)",
        "risk_prediction", "active", 0.847, "1.0.0-local"⟩,
       ⟨"data-quality-local", "Data Quality Checker (Local)",
        "data_quality", "active", 0.923, "1.0.0-local"⟩] ∧
    get_models = MOCK_MODELS ∧
    get_models.length = 2 ∧
    ∀ s : ServerState, (get_models_app s).1 =
      (get_models_app (get_models_app s).2).1 :=
  ⟨rfl, rfl, rfl, fun _ => rfl⟩

/-- C7: every call to `GET /health` returns `status = "healthy"` and
`models_loaded = 2` (the length of the static registry), whatever the
current timestamp is. -/
theorem C7_health_static (now : String) :
    (health_check now).status = "healthy" ∧
    (health_check now).models_loaded = 2 ∧
    (health_check now).models_loaded = MOCK_MODELS.length :=
  ⟨rfl, rfl, rfl⟩

/-- C9: no request handler mutates the model registry: each of the four
handlers, run from an arbitrary server state, returns that state
unchanged (hence the registry list, and every field of its records, is
identical before and after the handler runs). -/
theorem C9_handlers_preserve_registry (s : ServerState) (now ts : String)
    (req : PredictionRequest) (g u1 u2 : ℚ) :
    (health_check_app s now).2 = s ∧
    (get_models_app s).2 = s ∧
    (predict_app s req g u1 u2 ts).2 = s ∧
    (root_app s).2 = s :=
  ⟨rfl, rfl, rfl, rfl⟩

/-- C10: the `/predict` response does not depend on `tenant_id` or
`data`: two requests with the same `model_type`, evaluated with the same
random draws (and the same clock), produce literally identical results —
in particular the same prediction, confidence and model_version —
whatever their `tenant_id` and `data` fields are. -/
theorem C10_tenant_data_independence (t1 t2 : String)
    (d1 d2 : List (String × JsonValue)) (mt : String) (g u1 u2 : ℚ)
    (ts : String) :
    predict ⟨t1, mt, d1⟩ g u1 u2 ts = predict ⟨t2, mt, d2⟩ g u1 u2 ts := rfl

/-- C1: whenever the registry lookup of a `/predict` request matches a
record, the handler returns a response whose `model_version` equals that
record's `version` field (which is `"1.0.0-local"` for both defined
types); and when no record matches, the handler raises, so no response
is constructed. -/
theorem C1_model_version_invariant (req : PredictionRequest) (g u1 u2 : ℚ)
    (ts : String) :
    (∀ m, MOCK_MODELS.find? (fun x => x.type == req.model_type) = some m →
      ∃ resp, predict req g u1 u2 ts = Except.ok resp ∧
        resp.model_version = m.version ∧ resp.model_version = "1.0.0-local") ∧
    (MOCK_MODELS.find? (fun x => x.type == req.model_type) = none →
      ∀ resp, predict req g u1 u2 ts ≠ Except.ok resp) := by
  obtain ⟨t, mt, d⟩ := req
  by_cases hr : mt = "risk_prediction"
  · subst hr
    have hfind : MOCK_MODELS.find? (fun x => x.type ==
        (⟨t, "risk_prediction", d⟩ : PredictionRequest).model_type) =
        some riskRecord := rfl
    constructor
    · intro m hm
      rw [hfind] at hm
      injection hm with hm
      subst hm
      exact ⟨_, predict_risk_eq t d g u1 u2 ts, rfl, rfl⟩
    · intro hnone
      rw [hfind] at hnone
      exact Option.noConfusion hnone
  · by_cases hq : mt = "data_quality"
    · subst hq
      have hfind : MOCK_MODELS.find? (fun x => x.type ==
          (⟨t, "data_quality", d⟩ : PredictionRequest).model_type) =
          some qualityRecord := rfl
      constructor
      · intro m hm
        rw [hfind] at hm
        injection hm with hm
        subst hm
        exact ⟨_, predict_quality_eq t d g u1 u2 ts, rfl, rfl⟩
      · intro hnone
        rw [hfind] at hnone
        exact Option.noConfusion hnone
    · have e1 : (("risk_prediction" : String) == mt) = false := by
        simpa using Ne.symm hr
      have e2 : (("data_quality" : String) == mt) = false := by
        simpa using Ne.symm hq
      have hfind : MOCK_MODELS.find? (fun x => x.type ==
          (⟨t, mt, d⟩ : PredictionRequest).model_type) = none := by
        simp [MOCK_MODELS, riskRecord, qualityRecord, List.find?, e1, e2]
      constructor
      · intro m hm
        rw [hfind] at hm
        exact Option.noConfusion hm
      · intro _ resp hok
        rw [predict_unknown_eq t d g u1 u2 ts mt hr hq] at hok
        exact Except.noConfusion hok

/-- Witness for C1 at a concrete matching request. -/
theorem C1_witness :
    ∃ resp, predict ⟨"tenant-a", "risk_prediction", []⟩ 6.5 0 0 "t0" =
      Except.ok resp ∧ resp.model_version = "1.0.0-local" := by
  obtain ⟨resp, hok, _, hv⟩ :=
    (C1_model_version_invariant ⟨"tenant-a", "risk_prediction", []⟩
      6.5 0 0 "t0").1 riskRecord rfl
  exact ⟨resp, hok, hv⟩

/-- C2: the `/predict` handler fails — with status 404 and a detail
message naming the missing type — exactly when no registry record has
the request's `model_type`; and whenever the spec's first-match lookup
(first `ModelRecord` in definition order whose `type` equals
`model_type`) selects a record, the handler succeeds using that
record. -/
theorem C2_first_match_404 (req : PredictionRequest) (g u1 u2 : ℚ)
    (ts : String) :
    ((∃ e, predict req g u1 u2 ts = Except.error e ∧ e.status_code = 404 ∧
        e.detail = "Model type \x27" ++ req.model_type ++ "\x27 not found") ↔
      ∀ m ∈ MOCK_MODELS, m.type ≠ req.model_type) ∧
    (∀ m, specLookup MOCK_MODELS req.model_type = some m →
      ∃ resp, predict req g u1 u2 ts = Except.ok resp ∧
        resp.model_version = m.version) := by
  obtain ⟨t, mt, d⟩ := req
  by_cases hr : mt = "risk_prediction"
  · subst hr
    constructor
    · apply iff_of_false
      · rintro ⟨e, he, -, -⟩
        rw [predict_risk_eq] at he
        exact Except.noConfusion he
      · intro hall
        exact hall riskRecord (by simp [MOCK_MODELS]) rfl
    · intro m hm
      have hspec : specLookup MOCK_MODELS
          (⟨t, "risk_prediction", d⟩ : PredictionRequest).model_type =
          some riskRecord := rfl
      rw [hspec] at hm
      injection hm with hm
      subst hm
      exact ⟨_, predict_risk_eq t d g u1 u2 ts, rfl⟩
  · by_cases hq : mt = "data_quality"
    · subst hq
      constructor
      · apply iff_of_false
        · rintro ⟨e, he, -, -⟩
          rw [predict_quality_eq] at he
          exact Except.noConfusion he
        · intro hall
          exact hall qualityRecord (by simp [MOCK_MODELS]) rfl
      · intro m hm
        have hspec : specLookup MOCK_MODELS
            (⟨t, "data_quality", d⟩ : PredictionRequest).model_type =
            some qualityRecord := rfl
        rw [hspec] at hm
        injection hm with hm
        subst hm
        exact ⟨_, predict_quality_eq t d g u1 u2 ts, rfl⟩
    · constructor
      · apply iff_of_true
        · exact ⟨⟨404, "Model type \x27" ++ mt ++ "\x27 not found"⟩,
            predict_unknown_eq t d g u1 u2 ts mt hr hq, rfl, rfl⟩
        · intro m hmem
          simp [MOCK_MODELS] at hmem
          rcases hmem with rfl | rfl
          · exact Ne.symm hr
          · exact Ne.symm hq
      · have hspec : specLookup MOCK_MODELS
            (⟨t, mt, d⟩ : PredictionRequest).model_type = none := by
          simp [MOCK_MODELS, specLookup, riskRecord, qualityRecord,
            Ne.symm hr, Ne.symm hq]
        intro m hm
        rw [hspec] at hm
        exact Option.noConfusion hm

/-- Witness for C2 at a concrete request with an unknown model type. -/
theorem C2_witness :
    (∀ m ∈ MOCK_MODELS, m.type ≠ "anomaly_detection") ∧
    ∃ e, predict ⟨"tenant-a", "anomaly_detection", []⟩ 0 0 0 "t0" =
        Except.error e ∧ e.status_code = 404 ∧
      e.detail = "Model type \x27" ++ "anomaly_detection" ++ "\x27 not found" := by
  have hall : ∀ m ∈ MOCK_MODELS, m.type ≠ "anomaly_detection" := by decide
  obtain ⟨e, he, hs, hd⟩ :=
    ((C2_first_match_404 ⟨"tenant-a", "anomaly_detection", []⟩
      0 0 0 "t0").1).mpr hall
  exact ⟨hall, e, he, hs, hd⟩

/-- C5: the generic fallback branch of the prediction computation is
dead code: any request whose registry lookup succeeds has `model_type`
equal to `"risk_prediction"` or `"data_quality"`, so the if/elif/else
dispatch never reaches its `else` branch. -/
theorem C5_generic_branch_unreachable (req : PredictionRequest)
    (h : ∃ m, MOCK_MODELS.find? (fun x => x.type == req.model_type) = some m) :
    (req.model_type = "risk_prediction" ∨ req.model_type = "data_quality") ∧
    predictionBranch req.model_type ≠ PredictBranch.generic := by
  obtain ⟨t, mt, d⟩ := req
  by_cases hr : mt = "risk_prediction"
  · subst hr
    refine ⟨Or.inl rfl, ?_⟩
    show PredictBranch.risk ≠ PredictBranch.generic
    decide
  · by_cases hq : mt = "data_quality"
    · subst hq
      refine ⟨Or.inr rfl, ?_⟩
      show PredictBranch.quality ≠ PredictBranch.generic
      decide
    · exfalso
      have e1 : (("risk_prediction" : String) == mt) = false := by
        simpa using Ne.symm hr
      have e2 : (("data_quality" : String) == mt) = false := by
        simpa using Ne.symm hq
      have hfind : MOCK_MODELS.find? (fun x => x.type ==
          (⟨t, mt, d⟩ : PredictionRequest).model_type) = none := by
        simp [MOCK_MODELS, riskRecord, qualityRecord, List.find?, e1, e2]
      obtain ⟨m, hm⟩ := h
      rw [hfind] at hm
      exact Option.noConfusion hm

/-- Witness for C5 at a concrete matching request. -/
theorem C5_witness :
    ((⟨"t1", "risk_prediction", []⟩ : PredictionRequest).model_type =
        "risk_prediction" ∨
      (⟨"t1", "risk_prediction", []⟩ : PredictionRequest).model_type =
        "data_quality") ∧
    predictionBranch
      (⟨"t1", "risk_prediction", []⟩ : PredictionRequest).model_type ≠
      PredictBranch.generic :=
  C5_generic_branch_unreachable ⟨"t1", "risk_prediction", []⟩ ⟨riskRecord, rfl⟩

/-! ## Concrete rounding evaluations used by the counterexamples -/

lemma round3_conf_risk_top : round3 (0.75 + (0.9999:ℚ) * 0.2) = 0.95 := by
  unfold round3
  rw [show (0.75 + (0.9999:ℚ) * 0.2) * 1000 = 949.98 by norm_num]
  rw [roundHalfEven_eq_of_half_lt 949.98 949 (by norm_num) (by norm_num)]
  norm_num

lemma round3_pred_quality_top : round3 (0.7 + (0.9999:ℚ) * 0.25) = 0.95 := by
  unfold round3
  rw [show (0.7 + (0.9999:ℚ) * 0.25) * 1000 = 949.975 by norm_num]
  rw [roundHalfEven_eq_of_half_lt 949.975 949 (by norm_num) (by norm_num)]
  norm_num

lemma round3_conf_quality_top : round3 (0.8 + (0.9999:ℚ) * 0.15) = 0.95 := by
  unfold round3
  rw [show (0.8 + (0.9999:ℚ) * 0.15) * 1000 = 949.985 by norm_num]
  rw [roundHalfEven_eq_of_half_lt 949.985 949 (by norm_num) (by norm_num)]
  norm_num

/-- C3 counterexample: the claim bounds the RETURNED (rounded) values,
and rounding can push the confidence up to exactly `0.95`.  With the
valid uniform draw `u1 = 0.9999` the raw confidence is
`0.75 + 0.9999 * 0.2 = 0.94998`, which `round(·, 3)` rounds to `0.95`,
so the returned confidence violates `confidence < 0.95`. -/
theorem C3_counterexample :
    ((0:ℚ) ≤ 0.9999 ∧ (0.9999:ℚ) < 1) ∧
    ∃ resp, predict ⟨"tenant-a", "risk_prediction", []⟩ 6.5 0.9999 0 "t0" =
        Except.ok resp ∧ resp.confidence = 0.95 ∧
      ¬ (resp.confidence < 0.95) := by
  refine ⟨⟨by norm_num, by norm_num⟩,
    ⟨round3 (max 0 (min 10 6.5)), round3 (0.75 + 0.9999 * 0.2),
      "1.0.0-local", "t0"⟩,
    predict_risk_eq "tenant-a" [] 6.5 0.9999 0 "t0", ?_, ?_⟩
  · show round3 (0.75 + (0.9999:ℚ) * 0.2) = 0.95
    exact round3_conf_risk_top
  · show ¬ (round3 (0.75 + (0.9999:ℚ) * 0.2) < 0.95)
    rw [round3_conf_risk_top]
    norm_num

/-- C3 as amended: for every successful `risk_prediction` response built
from valid uniform draws, `0 ≤ prediction ≤ 10` and
`0.75 ≤ confidence ≤ 0.95` (the upper confidence bound is attained, so
it is `≤`, not `<`). -/
theorem C3_amended_bounds (t : String) (d : List (String × JsonValue))
    (g u1 u2 : ℚ) (ts : String) (h1 : 0 ≤ u1) (h2 : u1 < 1)
    (resp : PredictionResponse)
    (hok : predict ⟨t, "risk_prediction", d⟩ g u1 u2 ts = Except.ok resp) :
    0 ≤ resp.prediction ∧ resp.prediction ≤ 10 ∧
    0.75 ≤ resp.confidence ∧ resp.confidence ≤ 0.95 := by
  rw [predict_risk_eq] at hok
  injection hok with hok
  subst hok
  refine ⟨?_, ?_, ?_, ?_⟩
  · have e : ((0:ℤ):ℚ)/1000 = 0 := by norm_num
    have hb := le_round3 0 (max 0 (min 10 g))
      (by rw [e]; exact le_max_left 0 (min 10 g))
    rw [e] at hb
    exact hb
  · have e : ((10000:ℤ):ℚ)/1000 = 10 := by norm_num
    have hb := round3_le 10000 (max 0 (min 10 g))
      (by rw [e]; exact max_le (by norm_num) (min_le_left 10 g))
    rw [e] at hb
    exact hb
  · have e : ((750:ℤ):ℚ)/1000 = 0.75 := by norm_num
    have hm : (0:ℚ) ≤ u1 * 0.2 := mul_nonneg h1 (by norm_num)
    have hb := le_round3 750 (0.75 + u1 * 0.2) (by rw [e]; linarith)
    rw [e] at hb
    exact hb
  · have e : ((950:ℤ):ℚ)/1000 = 0.95 := by norm_num
    have hm : u1 * 0.2 ≤ 1 * 0.2 :=
      mul_le_mul_of_nonneg_right h2.le (by norm_num)
    have hb := round3_le 950 (0.75 + u1 * 0.2) (by rw [e]; linarith)
    rw [e] at hb
    exact hb

/-- Witness for the amended C3 at a concrete request and valid draws. -/
theorem C3_witness :
    (0:ℚ) ≤ 0 ∧ (0:ℚ) < 1 ∧
    ∃ resp, predict ⟨"tenant-a", "risk_prediction", []⟩ 6.5 0 0 "t0" =
        Except.ok resp ∧
      (0 ≤ resp.prediction ∧ resp.prediction ≤ 10 ∧
        0.75 ≤ resp.confidence ∧ resp.confidence ≤ 0.95) := by
  refine ⟨le_refl 0, by norm_num,
    ⟨round3 (max 0 (min 10 6.5)), round3 (0.75 + 0 * 0.2),
      "1.0.0-local", "t0"⟩,
    predict_risk_eq "tenant-a" [] 6.5 0 0 "t0", ?_⟩
  exact C3_amended_bounds "tenant-a" [] 6.5 0 0 "t0" (le_refl 0) (by norm_num)
    _ (predict_risk_eq "tenant-a" [] 6.5 0 0 "t0")

/-- C4 counterexample: with the valid uniform draws
`u1 = u2 = 0.9999` the raw `data_quality` values are
`0.949975` and `0.949985`, both of which `round(·, 3)` rounds to
`0.95`, so the returned prediction violates `prediction < 0.95` and the
returned confidence violates `confidence < 0.95`. -/
theorem C4_counterexample :
    ((0:ℚ) ≤ 0.9999 ∧ (0.9999:ℚ) < 1) ∧
    ∃ resp, predict ⟨"tenant-a", "data_quality", []⟩ 0 0.9999 0.9999 "t0" =
        Except.ok resp ∧ resp.prediction = 0.95 ∧ resp.confidence = 0.95 ∧
      ¬ (resp.prediction < 0.95) ∧ ¬ (resp.confidence < 0.95) := by
  refine ⟨⟨by norm_num, by norm_num⟩,
    ⟨round3 (0.7 + 0.9999 * 0.25), round3 (0.8 + 0.9999 * 0.15),
      "1.0.0-local", "t0"⟩,
    predict_quality_eq "tenant-a" [] 0 0.9999 0.9999 "t0", ?_, ?_, ?_, ?_⟩
  · show round3 (0.7 + (0.9999:ℚ) * 0.25) = 0.95
    exact round3_pred_quality_top
  · show round3 (0.8 + (0.9999:ℚ) * 0.15) = 0.95
    exact round3_conf_quality_top
  · show ¬ (round3 (0.7 + (0.9999:ℚ) * 0.25) < 0.95)
    rw [round3_pred_quality_top]
    norm_num
  · show ¬ (round3 (0.8 + (0.9999:ℚ) * 0.15) < 0.95)
    rw [round3_conf_quality_top]
    norm_num

/-- C4 as amended: for every successful `data_quality` response built
from valid uniform draws, `0.7 ≤ prediction ≤ 0.95` and
`0.8 ≤ confidence ≤ 0.95` (both upper bounds are attained after
rounding, so they are `≤`, not `<`). -/
theorem C4_amended_bounds (t : String) (d : List (String × JsonValue))
    (g u1 u2 : ℚ) (ts : String) (h1 : 0 ≤ u1) (h2 : u1 < 1)
    (h3 : 0 ≤ u2) (h4 : u2 < 1) (resp : PredictionResponse)
    (hok : predict ⟨t, "data_quality", d⟩ g u1 u2 ts = Except.ok resp) :
    0.7 ≤ resp.prediction ∧ resp.prediction ≤ 0.95 ∧
    0.8 ≤ resp.confidence ∧ resp.confidence ≤ 0.95 := by
  rw [predict_quality_eq] at hok
  injection hok with hok
  subst hok
  refine ⟨?_, ?_, ?_, ?_⟩
  · have e : ((700:ℤ):ℚ)/1000 = 0.7 := by norm_num
    have hm : (0:ℚ) ≤ u1 * 0.25 := mul_nonneg h1 (by norm_num)
    have hb := le_round3 700 (0.7 + u1 * 0.25) (by rw [e]; linarith)
    rw [e] at hb
    exact hb
  · have e : ((950:ℤ):ℚ)/1000 = 0.95 := by norm_num
    have hm : u1 * 0.25 ≤ 1 * 0.25 :=
      mul_le_mul_of_nonneg_right h2.le (by norm_num)
    have hb := round3_le 950 (0.7 + u1 * 0.25) (by rw [e]; linarith)
    rw [e] at hb
    exact hb
  · have e : ((800:ℤ):ℚ)/1000 = 0.8 := by norm_num
    have hm : (0:ℚ) ≤ u2 * 0.15 := mul_nonneg h3 (by norm_num)
    have hb := le_round3 800 (0.8 + u2 * 0.15) (by rw [e]; linarith)
    rw [e] at hb
    exact hb
  · have e : ((950:ℤ):ℚ)/1000 = 0.95 := by norm_num
    have hm : u2 * 0.15 ≤ 1 * 0.15 :=
      mul_le_mul_of_nonneg_right h4.le (by norm_num)
    have hb := round3_le 950 (0.8 + u2 * 0.15) (by rw [e]; linarith)
    rw [e] at hb
    exact hb

/-- Witness for the amended C4 at a concrete request and valid draws. -/
theorem C4_witness :
    (0:ℚ) ≤ 0 ∧ (0:ℚ) < 1 ∧
    ∃ resp, predict ⟨"tenant-a", "data_quality", []⟩ 0 0 0 "t0" =
        Except.ok resp ∧
      (0.7 ≤ resp.prediction ∧ resp.prediction ≤ 0.95 ∧
        0.8 ≤ resp.confidence ∧ resp.confidence ≤ 0.95) := by
  refine ⟨le_refl 0, by norm_num,
    ⟨round3 (0.7 + 0 * 0.25), round3 (0.8 + 0 * 0.15),
      "1.0.0-local", "t0"⟩,
    predict_quality_eq "tenant-a" [] 0 0 0 "t0", ?_⟩
  exact C4_amended_bounds "tenant-a" [] 0 0 0 "t0" (le_refl 0) (by norm_num)
    (le_refl 0) (by norm_num) _ (predict_quality_eq "tenant-a" [] 0 0 0 "t0")

/-- C8: every successful `/predict` response carries in its
`prediction` and `confidence` fields exactly the internally computed raw
values rounded to 3 decimal places: each returned field equals
`round3` of the raw value, is an integer multiple of `1/1000`, and
differs from the raw value by at most half a thousandth. -/
theorem C8_rounded_to_3dp (req : PredictionRequest) (g u1 u2 : ℚ)
    (ts : String) (resp : PredictionResponse)
    (hok : predict req g u1 u2 ts = Except.ok resp) :
    resp.prediction = round3 (rawPrediction req.model_type g u1) ∧
    resp.confidence = round3 (rawConfidence req.model_type u1 u2) ∧
    (∃ k : ℤ, resp.prediction = (k:ℚ)/1000) ∧
    (∃ k : ℤ, resp.confidence = (k:ℚ)/1000) ∧
    |resp.prediction - rawPrediction req.model_type g u1| ≤ 1/2000 ∧
    |resp.confidence - rawConfidence req.model_type u1 u2| ≤ 1/2000 := by
  unfold predict predictOn at hok
  split at hok
  · exact Except.noConfusion hok
  · injection hok with hok
    subst hok
    exact ⟨rfl, rfl, round3_thousandth _, round3_thousandth _,
      round3_close _, round3_close _⟩

/-- Witness for C8 at a concrete request and draws. -/
theorem C8_witness :
    ∃ resp, predict ⟨"tenant-a", "risk_prediction", []⟩ 6.5 0 0 "t0" =
        Except.ok resp ∧
      resp.prediction = round3 (rawPrediction "risk_prediction" 6.5 0) ∧
      resp.confidence = round3 (rawConfidence "risk_prediction" 0 0) ∧
      (∃ k : ℤ, resp.prediction = (k:ℚ)/1000) ∧
      (∃ k : ℤ, resp.confidence = (k:ℚ)/1000) ∧
      |resp.prediction - rawPrediction "risk_prediction" 6.5 0| ≤ 1/2000 ∧
      |resp.confidence - rawConfidence "risk_prediction" 0 0| ≤ 1/2000 := by
  refine ⟨⟨round3 (max 0 (min 10 6.5)), round3 (0.75 + 0 * 0.2),
    "1.0.0-local", "t0"⟩,
    predict_risk_eq "tenant-a" [] 6.5 0 0 "t0", ?_⟩
  exact C8_rounded_to_3dp ⟨"tenant-a", "risk_prediction", []⟩ 6.5 0 0 "t0"
    _ (predict_risk_eq "tenant-a" [] 6.5 0 0 "t0")
